import Mathlib

/-!
Verification of the `SwimXMLWriter` fixture generator (`main.py`).

The program builds an in-memory XML tree with `xml.dom.minidom` — string
attributes set in order, element children appended in order — and serializes
it with `toprettyxml()`.  The only nontrivial logic is `create_ops_data`,
which synthesizes time-series records either by stepping an absolute start
date with `dateutil.relativedelta` or by recomputing a "dynamic date" string
from the current wall-clock time, choosing each record's value with the
globally seeded `random.choice`.

The embedding below models elements, the builder state, Python's
`datetime.strptime(_, "%Y-%m-%d")`, `strftime`, `relativedelta` addition,
`timedelta` addition (through day numbers of the proleptic Gregorian
calendar), and the seeded random generator as an explicit stream.
-/

namespace SwimXml

/-- An XML element as `main.py` uses `minidom`: a tag, the attributes in the
order they were set, and the child elements in the order they were appended.
(The program never creates text nodes and never overwrites an attribute.) -/
inductive Element where
  | node (tag : String) (attrs : List (String × String)) (children : List Element)

def Element.tag : Element → String
  | .node t _ _ => t

def Element.attrs : Element → List (String × String)
  | .node _ a _ => a

def Element.children : Element → List Element
  | .node _ _ c => c

/-- `minidom` `appendChild`: the new child goes after all existing children. -/
def Element.appendChild : Element → Element → Element
  | .node t a cs, c => .node t a (cs ++ [c])

/-- The state of a `SwimXMLWriter`: the document is always the single root
element `"data"` (lines 19-21), so the state is the root's child list. -/
structure Writer where
  rootChildren : List Element

/-- A `datetime.datetime` as `create_ops_data` manipulates it (microseconds
never arise: `strptime("%Y-%m-%d")` zeroes the time fields and the steps are
whole hours). -/
structure DateTime where
  year : Int
  month : Nat
  day : Nat
  hour : Nat
  minute : Nat
  second : Nat
deriving DecidableEq

def isLeap (y : Int) : Bool := y % 4 == 0 && (y % 100 != 0 || y % 400 == 0)

def daysInMonth (y : Int) (m : Nat) : Nat :=
  if m = 2 then (if isLeap y then 29 else 28)
  else if m = 4 ∨ m = 6 ∨ m = 9 ∨ m = 11 then 30
  else 31

/-- Day number (days since 1970-01-01) of a civil date of the proleptic
Gregorian calendar, the calendar `datetime.date` implements.  Standard
era/year-of-era decomposition with floor division. -/
def daysFromCivil (y : Int) (m d : Nat) : Int :=
  let y' : Int := if m ≤ 2 then y - 1 else y
  let era : Int := y'.fdiv 400
  let yoe : Int := y' - era * 400
  let mShift : Int := if 2 < m then (m : Int) - 3 else (m : Int) + 9
  let doy : Int := (153 * mShift + 2).fdiv 5 + (d : Int) - 1
  let doe : Int := yoe * 365 + yoe.fdiv 4 - yoe.fdiv 100 + doy
  era * 146097 + doe - 719468

/-- Civil date of a day number; inverse of `daysFromCivil`. -/
def civilFromDays (z : Int) : Int × Nat × Nat :=
  let z' : Int := z + 719468
  let era : Int := z'.fdiv 146097
  let doe : Int := z' - era * 146097
  let yoe : Int := (doe - doe.fdiv 1460 + doe.fdiv 36524 - doe.fdiv 146096).fdiv 365
  let doy : Int := doe - (365 * yoe + yoe.fdiv 4 - yoe.fdiv 100)
  let mp : Int := (5 * doy + 2).fdiv 153
  let d : Int := doy - (153 * mp + 2).fdiv 5 + 1
  let m : Int := if mp < 10 then mp + 3 else mp - 9
  let y : Int := yoe + era * 400 + (if m ≤ 2 then 1 else 0)
  (y, m.toNat, d.toNat)

/-- The months/years part of `dt + relativedelta(years=…, months=…)`:
`relativedelta` folds years and months into one month total, adds it to the
month index, and clamps the day to the target month's length
(`min(calendar.monthrange(y, m)[1], dt.day)`). -/
def addMonthsClamp (dt : DateTime) (months : Int) : DateTime :=
  let mi : Int := dt.year * 12 + ((dt.month : Int) - 1) + months
  let y : Int := mi.fdiv 12
  let m : Nat := (mi - y * 12).toNat + 1
  { dt with year := y, month := m, day := min (daysInMonth y m) dt.day }

/-- `dt + timedelta(days=…, hours=…)`: exact clock arithmetic through the
day number. -/
def addClock (dt : DateTime) (days hours : Int) : DateTime :=
  let total : Int := (daysFromCivil dt.year dt.month dt.day + days) * 24 + (dt.hour : Int) + hours
  let z : Int := total.fdiv 24
  let h : Nat := (total - z * 24).toNat
  let c := civilFromDays z
  { year := c.1, month := c.2.1, day := c.2.2, hour := h,
    minute := dt.minute, second := dt.second }

/-- `date += relativedelta(years=…, months=…, days=…, hours=…)`
(lines 139-144): `relativedelta.__radd__` first applies the calendar
year/month shift with day clamping, then adds `timedelta(days=…, hours=…)`. -/
def stepDate (dt : DateTime) (years months days hours : Int) : DateTime :=
  addClock (addMonthsClamp dt (years * 12 + months)) days hours

def digitVal (c : Char) : Nat := c.toNat - '0'.toNat

/-- The `%m` directive of CPython `_strptime`: regex `1[0-2]|0[1-9]|[1-9]`,
leftmost alternative first.  When the two-character alternative `1[0-2]`
matches, backtracking into `[1-9]` can never rescue a later failure of the
literal `-` (the next character would be a digit, not `-`), so committing to
the first matching alternative is faithful. -/
def parseMonth : List Char → Option (Nat × List Char)
  | '1' :: c :: rest =>
    if '0' ≤ c ∧ c ≤ '2' then some (10 + digitVal c, rest) else some (1, c :: rest)
  | '0' :: c :: rest =>
    if '1' ≤ c ∧ c ≤ '9' then some (digitVal c, rest) else none
  | c :: rest =>
    if '1' ≤ c ∧ c ≤ '9' then some (digitVal c, rest) else none
  | [] => none

/-- The `%d` directive of CPython `_strptime`: regex
`3[01]|[12]\d|0[1-9]|[1-9]`, leftmost alternative first; when a two-character
alternative matches, nothing follows in the format, so backtracking never
changes the overall outcome (a shorter match only leaves unconverted data). -/
def parseDay : List Char → Option (Nat × List Char)
  | '3' :: c :: rest =>
    if c = '0' ∨ c = '1' then some (30 + digitVal c, rest) else some (3, c :: rest)
  | '1' :: c :: rest =>
    if c.isDigit then some (10 + digitVal c, rest) else some (1, c :: rest)
  | '2' :: c :: rest =>
    if c.isDigit then some (20 + digitVal c, rest) else some (2, c :: rest)
  | '0' :: c :: rest =>
    if '1' ≤ c ∧ c ≤ '9' then some (digitVal c, rest) else none
  | c :: rest =>
    if '1' ≤ c ∧ c ≤ '9' then some (digitVal c, rest) else none
  | [] => none

/-- `datetime.datetime.strptime(from_date, "%Y-%m-%d")` (line 132): `%Y` is
exactly four digits, the literal `-`s, `%m`, `%d`, then the "unconverted data
remains" check (the rest must be empty), then the `datetime` constructor's
range checks (year at least 1, day no larger than the month's length).
`none` models the `ValueError` the call raises on malformed input. -/
def strptimeYmd (s : String) : Option DateTime :=
  match s.data with
  | y1 :: y2 :: y3 :: y4 :: '-' :: rest =>
    if y1.isDigit ∧ y2.isDigit ∧ y3.isDigit ∧ y4.isDigit then
      match parseMonth rest with
      | some (m, '-' :: rest2) =>
        match parseDay rest2 with
        | some (d, []) =>
          let y : Int := ((digitVal y1 * 10 + digitVal y2) * 10 + digitVal y3) * 10 + digitVal y4
          if 1 ≤ y ∧ d ≤ daysInMonth y m then some ⟨y, m, d, 0, 0, 0⟩ else none
        | _ => none
      | _ => none
    else none
  | _ => none

def pad2 (n : Nat) : String := if n < 10 then "0" ++ toString n else toString n

/-- `%Y`, zero-padded to four digits (every year this program can produce is
parsed from four digits and stays in range for the concrete inputs at issue). -/
def pad4 (y : Int) : String :=
  let n := y.toNat
  (if n < 10 then "000" else if n < 100 then "00" else if n < 1000 then "0" else "")
    ++ toString n

/-- `date.strftime("%Y-%m-%d %H:%M:%S")` (line 136). -/
def fmtDateTime (d : DateTime) : String :=
  pad4 d.year ++ "-" ++ pad2 d.month ++ "-" ++ pad2 d.day ++ " " ++
    pad2 d.hour ++ ":" ++ pad2 d.minute ++ ":" ++ pad2 d.second

/-- `(current_date + relativedelta(months=+1)).strftime("- %m months")`
(lines 153-155): `%m` is the zero-padded calendar month of the shifted date. -/
def fmtDynamic (d : DateTime) : String := "- " ++ pad2 d.month ++ " months"

/-- The global `random` generator, abstracted as a deterministic stream of
naturals with a cursor: `random.seed(1)` (line 7) fixes the stream once per
process, and each successful `random.choice` consumes one stream element.
The claims about this program depend only on the generator being a
deterministic function of the seed and on the chosen index lying below the
list length, never on the Mersenne-Twister distribution. -/
structure Rng where
  stream : Nat → Nat
  pos : Nat

def Rng.next (r : Rng) : Rng := { r with pos := r.pos + 1 }

def rngAdv (r : Rng) (n : Nat) : Rng := { r with pos := r.pos + n }

/-- The two exceptions `create_ops_data` can raise: the `ValueError` of
`strptime` on a malformed date (line 132) and the `IndexError` of
`random.choice` on an empty sequence (lines 134/148). -/
inductive GenError where
  | parseError
  | emptySelection
deriving DecidableEq

/-- The element `random.choice(values)` returns: `values[_randbelow(len(values))]`,
with the random index reduced below the length. -/
def choiceVal (r : Rng) (values : List String) : String :=
  values.getD (r.stream r.pos % values.length) ""

/-- `random.choice(values)`: on an empty sequence `_randbelow(0)` returns 0
without consuming randomness and the indexing raises; otherwise one stream
element is consumed and an element of the list is returned. -/
def randomChoice (r : Rng) (values : List String) : Except GenError (String × Rng) :=
  match values with
  | [] => .error .emptySelection
  | v :: vs => .ok (choiceVal r (v :: vs), r.next)

/-- `create_indicator` (lines 23-34). -/
def create_indicator (w : Writer) (name type_ class_type : String) : Writer :=
  { rootChildren := w.rootChildren ++
      [.node "indicator" [("name", name), ("type", type_), ("class", class_type)] []] }

/-- `create_indicator_category` (lines 36-50): one `map` child per listed
indicator name, appended in list order. -/
def create_indicator_category (w : Writer) (name class_type : String)
    (indicators : List String := []) : Writer :=
  let ic := Element.node "indicatorcategory" [("name", name), ("class", class_type)] []
  let ic := indicators.foldl
    (fun e ind => e.appendChild (.node "map" [("indicator", ind)] [])) ic
  { rootChildren := w.rootChildren ++ [ic] }

/-- The attribute list `create_site` builds (lines 64-72): `name` and `type`
always; `parent`, `start_date`, `end_date` only when the argument is truthy,
i.e. a non-empty string. -/
def siteAttrs (name site_type parent start_date end_date : String) :
    List (String × String) :=
  let a := [("name", name), ("type", site_type)]
  let a := if parent = "" then a else a ++ [("parent", parent)]
  let a := if start_date = "" then a else a ++ [("start_date", start_date)]
  if end_date = "" then a else a ++ [("end_date", end_date)]

/-- `create_site` (lines 52-77): the conditional attributes, then one `map`
child per category, then the site is appended to the root.  Python's omitted
arguments default to `""`, exactly as here. -/
def create_site (w : Writer) (name site_type : String) (categories : List String := [])
    (parent : String := "") (start_date : String := "") (end_date : String := "") : Writer :=
  let site := Element.node "site" (siteAttrs name site_type parent start_date end_date) []
  let site := categories.foldl
    (fun e c => e.appendChild (.node "map" [("category", c)] [])) site
  { rootChildren := w.rootChildren ++ [site] }

/-- `create_access_group` (lines 79-100): one `user` child per user, then one
`site` child per entry of the (insertion-ordered) `sites` dict, each with one
`category` child per listed category. -/
def create_access_group (w : Writer) (name : String) (users : List String := [])
    (sites : List (String × List String) := []) : Writer :=
  let ag := Element.node "accessgroup" [("name", name)] []
  let ag := users.foldl
    (fun e u => e.appendChild (.node "user" [("name", u)] [])) ag
  let ag := sites.foldl
    (fun e sc =>
      let site_el := Element.node "site" [("name", sc.1)] []
      let site_el := sc.2.foldl
        (fun se c => se.appendChild (.node "category" [("name", c)] [])) site_el
      e.appendChild site_el) ag
  { rootChildren := w.rootChildren ++ [ag] }

/-- The absolute-mode record loop of `create_ops_data` (lines 133-144): per
iteration, choose a value, emit a `data` child stamped with the current date,
then advance the date by the calendar step. -/
def opsLoopAbs (r : Rng) (values : List String) (date : DateTime)
    (ys ms ds hs : Int) : Nat → Except GenError (List Element × Rng)
  | 0 => .ok ([], r)
  | n + 1 =>
    match randomChoice r values with
    | .error e => .error e
    | .ok (v, r') =>
      match opsLoopAbs r' values (stepDate date ys ms ds hs) ys ms ds hs n with
      | .error e => .error e
      | .ok (cs, r'') =>
        .ok (.node "data" [("date", fmtDateTime date), ("value", v)] [] :: cs, r'')

/-- The dynamic-mode record loop of `create_ops_data` (lines 146-155): per
iteration, choose a value, emit a `data` child carrying the current
`dynamic_date` string, then overwrite that string with
`(current_date + relativedelta(months=+1)).strftime("- %m months")`, where
`current_date` was read from the wall clock once before the loop. -/
def opsLoopDyn (r : Rng) (values : List String) (dyn : String)
    (now : DateTime) : Nat → Except GenError (List Element × Rng)
  | 0 => .ok ([], r)
  | n + 1 =>
    match randomChoice r values with
    | .error e => .error e
    | .ok (v, r') =>
      match opsLoopDyn r' values (fmtDynamic (addMonthsClamp now 1)) now n with
      | .error e => .error e
      | .ok (cs, r'') =>
        .ok (.node "data" [("dynamic_date", dyn), ("value", v)] [] :: cs, r'')

/-- Error-free closed form of the absolute-mode loop (proved equal to
`opsLoopAbs` whenever the candidate list is non-empty). -/
def absChildren (r : Rng) (values : List String) (d : DateTime)
    (ys ms ds hs : Int) : Nat → List Element
  | 0 => []
  | n + 1 =>
    .node "data" [("date", fmtDateTime d), ("value", choiceVal r values)] [] ::
      absChildren r.next values (stepDate d ys ms ds hs) ys ms ds hs n

/-- Error-free closed form of the dynamic-mode loop (proved equal to
`opsLoopDyn` whenever the candidate list is non-empty). -/
def dynChildren (r : Rng) (values : List String) (dyn : String)
    (now : DateTime) : Nat → List Element
  | 0 => []
  | n + 1 =>
    .node "data" [("dynamic_date", dyn), ("value", choiceVal r values)] [] ::
      dynChildren r.next values (fmtDynamic (addMonthsClamp now 1)) now n

/-- `create_ops_data` (lines 102-156).  `now` is the value
`datetime.datetime.now()` would read (line 146; only the dynamic branch looks
at it).  The `operationsdata` element gets its `site`/`indicator` attributes
first (lines 128-130); in absolute mode `from_date` is parsed before the
record loop (line 132); the element is appended to the root only after the
whole loop (line 156), so an exception yields no writer mutation at all. -/
def create_ops_data (w : Writer) (r : Rng) (now : DateTime)
    (site indicator : String) (num_records : Nat) (values : List String := [])
    (dynamic_date : Option String := none) (from_date : String := "")
    (step_years : Int := 0) (step_months : Int := 0) (step_days : Int := 0)
    (step_hours : Int := 0) : Except GenError (Writer × Rng) :=
  match dynamic_date with
  | none =>
    match strptimeYmd from_date with
    | none => .error .parseError
    | some date =>
      match opsLoopAbs r values date step_years step_months step_days step_hours
          num_records with
      | .error e => .error e
      | .ok (children, r') =>
        .ok ({ rootChildren := w.rootChildren ++
            [.node "operationsdata" [("site", site), ("indicator", indicator)]
              children] }, r')
  | some dyn =>
    match opsLoopDyn r values dyn now num_records with
    | .error e => .error e
    | .ok (children, r') =>
      .ok ({ rootChildren := w.rootChildren ++
          [.node "operationsdata" [("site", site), ("indicator", indicator)]
            children] }, r')

/-- One `create_ops_data` call seen as a state transition together with the
exception it may raise.  When the call raises, the writer the caller still
holds is unchanged: the only mutation of the root in the source is
`self.root.appendChild(ops_data)` on line 156, which runs after the whole
record loop, while the two possible exceptions are raised on lines 132, 134
and 148, before any randomness is consumed past the failure point. -/
def opsDataCall (w : Writer) (r : Rng) (now : DateTime)
    (site indicator : String) (num_records : Nat) (values : List String)
    (dynamic_date : Option String) (from_date : String)
    (sy sm sd sh : Int) : Writer × Rng × Option GenError :=
  match create_ops_data w r now site indicator num_records values dynamic_date
      from_date sy sm sd sh with
  | .ok (w', r') => (w', r', none)
  | .error e => (w, r, some e)

/-- `true` when the call raised `IndexError` from `random.choice`. -/
def raisedEmptySelection (res : Except GenError (Writer × Rng)) : Bool :=
  match res with
  | .error .emptySelection => true
  | _ => false

/-- Every `data` child a successful `create_ops_data` call appends carries a
`value` attribute drawn from the supplied candidate list (`true` also when
the call raises, since then nothing is emitted). -/
def opsDataValuesOK (w : Writer) (r : Rng) (now : DateTime)
    (site indicator : String) (num_records : Nat) (values : List String)
    (dynamic_date : Option String) (from_date : String)
    (sy sm sd sh : Int) : Bool :=
  match create_ops_data w r now site indicator num_records values dynamic_date
      from_date sy sm sd sh with
  | .error _ => true
  | .ok (w', _) =>
    (w'.rootChildren.drop w.rootChildren.length).all fun e =>
      e.children.all fun c =>
        match List.lookup "value" c.attrs with
        | some v => values.contains v
        | none => false

/-- Attribute-value escaping of `minidom._write_data`: `&`, `<`, `"`, `>`
replaced by entities.  The sequential `str.replace` calls of the source never
re-examine the entities introduced by earlier replacements, so a per-character
map is byte-equivalent. -/
def escapeChar (c : Char) : List Char :=
  if c = '&' then "&amp;".data
  else if c = '<' then "&lt;".data
  else if c = '"' then "&quot;".data
  else if c = '>' then "&gt;".data
  else [c]

def escapeAttr (s : String) : String := ⟨(s.data.map escapeChar).flatten⟩

def attrsText (attrs : List (String × String)) : String :=
  String.join (attrs.map fun p => " " ++ p.1 ++ "=\"" ++ escapeAttr p.2 ++ "\"")

/-- `Element.writexml` as `toprettyxml()` invokes it (indent `""`, add-indent
`"\t"`, newline `"\n"`): childless elements are self-closed, otherwise the
children are written in order, one indentation level deeper.  (No text nodes
exist in this program, so `minidom`'s single-text-child special case never
fires.) -/
def writeXmlList : List Element → String → String
  | [], _ => ""
  | .node tag attrs children :: rest, indent =>
    indent ++ "<" ++ tag ++ attrsText attrs ++
      (match children with
       | [] => "/>\n"
       | c :: cs => ">\n" ++ writeXmlList (c :: cs) (indent ++ "\t") ++
           indent ++ "</" ++ tag ++ ">\n") ++
      writeXmlList rest indent
termination_by l _ => sizeOf l
decreasing_by
  all_goals simp_wf
  all_goals omega

/-- `doc.toprettyxml()` (line 160): the XML declaration, then the root
element `data` with the accumulated children. -/
def serializeDoc (w : Writer) : String :=
  "<?xml version=\"1.0\" ?>\n" ++ writeXmlList [.node "data" [] w.rootChildren] ""

/-- One record of the input lists the driver feeds the builder: each
constructor is one public add operation with its arguments. -/
inductive Cmd where
  | indicator (name type_ class_type : String)
  | indicatorCategory (name class_type : String) (indicators : List String)
  | site (name site_type : String) (categories : List String)
      (parent start_date end_date : String)
  | accessGroup (name : String) (users : List String)
      (sites : List (String × List String))
  | opsData (site indicator : String) (num_records : Nat) (values : List String)
      (dynamic_date : Option String) (from_date : String) (sy sm sd sh : Int)

/-- Whether the command reads the wall clock: only a dynamic-mode
`create_ops_data` call does (line 146). -/
def Cmd.usesClock : Cmd → Bool
  | .opsData _ _ _ _ (some _) _ _ _ _ _ => true
  | _ => false

def runCmd (w : Writer) (r : Rng) (now : DateTime) : Cmd → Except GenError (Writer × Rng)
  | .indicator n t c => .ok (create_indicator w n t c, r)
  | .indicatorCategory n c inds => .ok (create_indicator_category w n c inds, r)
  | .site n t cats p sd ed => .ok (create_site w n t cats p sd ed, r)
  | .accessGroup n us ss => .ok (create_access_group w n us ss, r)
  | .opsData s i num vs dyn fd sy sm sd sh =>
    create_ops_data w r now s i num vs dyn fd sy sm sd sh

/-- The driver's straight-line script: append each record in order; an
exception aborts the run before anything is written. -/
def runCmds (w : Writer) (r : Rng) (now : DateTime) :
    List Cmd → Except GenError (Writer × Rng)
  | [] => .ok (w, r)
  | c :: cs =>
    match runCmd w r now c with
    | .error e => .error e
    | .ok (w', r') => runCmds w' r' now cs

/-- A whole generation run: from the seeded generator `r`, the wall-clock
time `now` and the input record list, the text `save_xml` would write. -/
def generate (r : Rng) (now : DateTime) (cmds : List Cmd) : Except GenError String :=
  match runCmds ⟨[]⟩ r now cmds with
  | .error e => .error e
  | .ok (w, _) => .ok (serializeDoc w)

def genOk (res : Except GenError String) : Bool :=
  match res with
  | .ok _ => true
  | .error _ => false

/-- A concrete generator stream for witnesses: every draw is 0, so
`random.choice` always returns the first candidate. -/
def rng0 : Rng := ⟨fun _ => 0, 0⟩

/-- A concrete wall-clock time: 2022-05-15 10:30:00. -/
def nowMay : DateTime := ⟨2022, 5, 15, 10, 30, 0⟩

/-- A second concrete wall-clock time: 2022-11-03 01:02:03. -/
def nowNov : DateTime := ⟨2022, 11, 3, 1, 2, 3⟩

/-- A single dynamic-mode series, as in the reproducibility counterexample. -/
def dynCmds : List Cmd :=
  [.opsData "site1" "ecoli" 2 ["valid"] (some "-12 months") "" 0 0 0 0]

/-- An absolute-mode record list (no command reads the clock). -/
def absCmds : List Cmd :=
  [.indicator "ecoli" "2" "T",
   .opsData "site1" "ecoli" 2 ["valid", "invalid"] none "2022-01-01" 0 1 1 2]

/-- A writer already holding one child, for observing that a raising call
leaves it untouched. -/
def wIndicator : Writer :=
  ⟨[.node "indicator" [("name", "x"), ("type", "2"), ("class", "T")] []]⟩

/- ------------------------------------------------------------------ -/
/- Helper lemmas. -/

theorem attrs_node (t : String) (a : List (String × String)) (c : List Element) :
    (Element.node t a c).attrs = a := rfl

theorem children_node (t : String) (a : List (String × String)) (c : List Element) :
    (Element.node t a c).children = c := rfl

theorem lookup_date_head (x y : String) :
    List.lookup "date" [("date", x), ("value", y)] = some x := rfl

theorem lookup_value_abs (x y : String) :
    List.lookup "value" [("date", x), ("value", y)] = some y := rfl

theorem lookup_dyn_head (x y : String) :
    List.lookup "dynamic_date" [("dynamic_date", x), ("value", y)] = some x := rfl

theorem lookup_value_dyn (x y : String) :
    List.lookup "value" [("dynamic_date", x), ("value", y)] = some y := rfl

/-- A `for`-loop that appends one child per list entry produces the mapped
children after any existing ones, in list order. -/
theorem foldl_appendChild {α : Type} (f : α → Element) (t : String)
    (a : List (String × String)) :
    ∀ (l : List α) (cs : List Element),
      l.foldl (fun (e : Element) x => e.appendChild (f x)) (Element.node t a cs) =
        Element.node t a (cs ++ l.map f) := by
  intro l
  induction l with
  | nil => intro cs; simp
  | cons x xs ih =>
    intro cs
    simp only [List.foldl_cons, List.map_cons]
    have happ : (Element.node t a cs).appendChild (f x) = Element.node t a (cs ++ [f x]) := rfl
    rw [happ, ih]
    simp

/-- With a non-empty candidate list the absolute-mode loop never raises and
produces the closed-form children, consuming one stream element per record. -/
theorem opsLoopAbs_eq (v : String) (vs : List String) (ys ms ds hs : Int) :
    ∀ (n : Nat) (r : Rng) (d : DateTime),
      opsLoopAbs r (v :: vs) d ys ms ds hs n =
        .ok (absChildren r (v :: vs) d ys ms ds hs n, rngAdv r n) := by
  intro n
  induction n with
  | zero => intro r d; rfl
  | succ n ih =>
    intro r d
    have hpos : r.pos + 1 + n = r.pos + (n + 1) := by omega
    simp only [opsLoopAbs, randomChoice, absChildren, ih]
    simp [rngAdv, Rng.next, hpos]

/-- With a non-empty candidate list the dynamic-mode loop never raises and
produces the closed-form children, consuming one stream element per record. -/
theorem opsLoopDyn_eq (v : String) (vs : List String) (now : DateTime) :
    ∀ (n : Nat) (r : Rng) (dyn : String),
      opsLoopDyn r (v :: vs) dyn now n =
        .ok (dynChildren r (v :: vs) dyn now n, rngAdv r n) := by
  intro n
  induction n with
  | zero => intro r dyn; rfl
  | succ n ih =>
    intro r dyn
    have hpos : r.pos + 1 + n = r.pos + (n + 1) := by omega
    simp only [opsLoopDyn, randomChoice, dynChildren, ih]
    simp [rngAdv, Rng.next, hpos]

/-- The absolute-mode loop can only raise the empty-selection error. -/
theorem opsLoopAbs_error (values : List String) (ys ms ds hs : Int) :
    ∀ (n : Nat) (r : Rng) (d : DateTime) (e : GenError),
      opsLoopAbs r values d ys ms ds hs n = .error e → e = .emptySelection := by
  intro n
  induction n with
  | zero => intro r d e h; simp [opsLoopAbs] at h
  | succ n ih =>
    intro r d e h
    match values, h with
    | [], h =>
      simp [opsLoopAbs, randomChoice] at h
      exact h.symm
    | v :: vs, h =>
      rw [opsLoopAbs_eq] at h
      simp at h

/-- The date attribute of the i-th absolute-mode record is the start date
advanced i times by the calendar step. -/
theorem absChildren_dates (values : List String) (ys ms ds hs : Int) :
    ∀ (n : Nat) (r : Rng) (d : DateTime),
      (absChildren r values d ys ms ds hs n).map (fun c => List.lookup "date" c.attrs) =
        (List.range n).map
          (fun i => some (fmtDateTime ((fun x => stepDate x ys ms ds hs)^[i] d))) := by
  intro n
  induction n with
  | zero => intro r d; rfl
  | succ n ih =>
    intro r d
    rw [List.range_succ_eq_map]
    simp only [absChildren, List.map_cons, List.map_map, attrs_node,
      lookup_date_head]
    rw [ih]
    simp [Function.comp, Function.iterate_succ_apply, Function.iterate_zero_apply]

/-- The dynamic-date attribute of record 0 is the seed string; every later
record carries the string recomputed from the wall clock plus one month. -/
theorem dynChildren_dyns (values : List String) (now : DateTime) :
    ∀ (n : Nat) (r : Rng) (dyn : String),
      (dynChildren r values dyn now n).map
          (fun c => List.lookup "dynamic_date" c.attrs) =
        (List.range n).map
          (fun i => some (if i = 0 then dyn else fmtDynamic (addMonthsClamp now 1))) := by
  intro n
  induction n with
  | zero => intro r dyn; rfl
  | succ n ih =>
    intro r dyn
    rw [List.range_succ_eq_map]
    simp only [dynChildren, List.map_cons, List.map_map, attrs_node,
      lookup_dyn_head]
    rw [ih]
    simp [Function.comp_def, Nat.succ_ne_zero]

/-- `random.choice` on a non-empty list returns an element of the list. -/
theorem choiceVal_mem (r : Rng) (v : String) (vs : List String) :
    choiceVal r (v :: vs) ∈ v :: vs := by
  unfold choiceVal
  have hlt : r.stream r.pos % (v :: vs).length < (v :: vs).length :=
    Nat.mod_lt _ (by simp)
  rw [List.getD_eq_getElem?_getD, List.getElem?_eq_getElem hlt]
  exact List.getElem_mem hlt

/-- Every absolute-mode record's value attribute holds a candidate. -/
theorem absChildren_value (v : String) (vs : List String) (ys ms ds hs : Int) :
    ∀ (n : Nat) (r : Rng) (d : DateTime) (c : Element),
      c ∈ absChildren r (v :: vs) d ys ms ds hs n →
        ∃ u ∈ v :: vs, List.lookup "value" c.attrs = some u := by
  intro n
  induction n with
  | zero => intro r d c h; simp [absChildren] at h
  | succ n ih =>
    intro r d c h
    rw [absChildren, List.mem_cons] at h
    rcases h with h | h
    · exact ⟨choiceVal r (v :: vs), choiceVal_mem r v vs, by rw [h]; exact lookup_value_abs _ _⟩
    · exact ih r.next (stepDate d ys ms ds hs) c h

/-- Every dynamic-mode record's value attribute holds a candidate. -/
theorem dynChildren_value (v : String) (vs : List String) (now : DateTime) :
    ∀ (n : Nat) (r : Rng) (dyn : String) (c : Element),
      c ∈ dynChildren r (v :: vs) dyn now n →
        ∃ u ∈ v :: vs, List.lookup "value" c.attrs = some u := by
  intro n
  induction n with
  | zero => intro r dyn c h; simp [dynChildren] at h
  | succ n ih =>
    intro r dyn c h
    rw [dynChildren, List.mem_cons] at h
    rcases h with h | h
    · exact ⟨choiceVal r (v :: vs), choiceVal_mem r v vs, by rw [h]; exact lookup_value_dyn _ _⟩
    · exact ih r.next (fmtDynamic (addMonthsClamp now 1)) c h

/-- A successful `create_ops_data` call appends exactly one `operationsdata`
element carrying the `site`/`indicator` attributes. -/
theorem create_ops_data_ok_shape (w : Writer) (r : Rng) (now : DateTime)
    (site indicator : String) (num : Nat) (values : List String)
    (dyn : Option String) (fd : String) (sy sm sd sh : Int)
    (w' : Writer) (r' : Rng)
    (h : create_ops_data w r now site indicator num values dyn fd sy sm sd sh =
      .ok (w', r')) :
    ∃ cs, w'.rootChildren = w.rootChildren ++
      [.node "operationsdata" [("site", site), ("indicator", indicator)] cs] := by
  cases dyn with
  | none =>
    cases hp : strptimeYmd fd with
    | none => simp [create_ops_data, hp] at h
    | some d =>
      cases hl : opsLoopAbs r values d sy sm sd sh num with
      | error e => simp [create_ops_data, hp, hl] at h
      | ok p =>
        obtain ⟨cs, r2⟩ := p
        simp [create_ops_data, hp, hl] at h
        exact ⟨cs, by rw [← h.1]⟩
  | some dstr =>
    cases hl : opsLoopDyn r values dstr now num with
    | error e => simp [create_ops_data, hl] at h
    | ok p =>
      obtain ⟨cs, r2⟩ := p
      simp [create_ops_data, hl] at h
      exact ⟨cs, by rw [← h.1]⟩

theorem writeXmlList_nil (ind : String) : writeXmlList [] ind = "" := by
  unfold writeXmlList
  rfl

/-- One `writexml` step: the first element's text, then the rest's. -/
theorem writeXmlList_cons (t : String) (a : List (String × String))
    (cs es : List Element) (ind : String) :
    writeXmlList (Element.node t a cs :: es) ind =
      (ind ++ "<" ++ t ++ attrsText a ++
        (match cs with
         | [] => "/>\n"
         | c :: cs2 => ">\n" ++ writeXmlList (c :: cs2) (ind ++ "\t") ++
             ind ++ "</" ++ t ++ ">\n")) ++ writeXmlList es ind := by
  conv_lhs => unfold writeXmlList

/-- A command that does not read the clock behaves identically under any two
wall-clock times. -/
theorem runCmd_noClock (w : Writer) (r : Rng) (n1 n2 : DateTime) (c : Cmd)
    (h : c.usesClock = false) : runCmd w r n1 c = runCmd w r n2 c := by
  cases c with
  | indicator a b cc => rfl
  | indicatorCategory a b cc => rfl
  | site a b cc d e f => rfl
  | accessGroup a b cc => rfl
  | opsData s i num vs dyn fd sy sm sd sh =>
    cases dyn with
    | none => rfl
    | some dstr => simp [Cmd.usesClock] at h

/-- A record list without dynamic-mode series runs identically under any two
wall-clock times. -/
theorem runCmds_noClock (n1 n2 : DateTime) :
    ∀ (cmds : List Cmd) (w : Writer) (r : Rng),
      (∀ c ∈ cmds, c.usesClock = false) →
      runCmds w r n1 cmds = runCmds w r n2 cmds := by
  intro cmds
  induction cmds with
  | nil => intro w r _; rfl
  | cons c cs ih =>
    intro w r h
    simp only [runCmds]
    rw [runCmd_noClock w r n1 n2 c (h c (List.mem_cons_self c cs))]
    cases runCmd w r n2 c with
    | error e => rfl
    | ok p => exact ih p.1 p.2 fun x hx => h x (List.mem_cons_of_mem c hx)

/- ------------------------------------------------------------------ -/
/- Claim theorems. -/

/-- C1: in absolute mode, `create_ops_data` appends one `operationsdata`
element whose record i carries a `date` attribute equal to the parsed
`from_date` (at time 00:00:00) advanced i times by the calendar step — so
record 0 is stamped with the start date itself and each subsequent record
with the previous timestamp advanced by the step.  The claim's concrete
instance (seed 2022-01-01, step one month, one day, two hours, three
records, dates 2022-01-01 00:00:00 / 2022-02-02 02:00:00 /
2022-03-03 04:00:00) is evaluated in the witness. -/
theorem c1_absolute_calendar_stepping (w : Writer) (r : Rng) (now : DateTime)
    (site indicator : String) (num : Nat) (v : String) (vs : List String)
    (fd : String) (ys ms ds hs : Int) (d : DateTime)
    (hp : strptimeYmd fd = some d) :
    create_ops_data w r now site indicator num (v :: vs) none fd ys ms ds hs =
      .ok ({ rootChildren := w.rootChildren ++
          [.node "operationsdata" [("site", site), ("indicator", indicator)]
            (absChildren r (v :: vs) d ys ms ds hs num)] }, rngAdv r num) ∧
    (absChildren r (v :: vs) d ys ms ds hs num).map
        (fun c => List.lookup "date" c.attrs) =
      (List.range num).map
        (fun i => some (fmtDateTime ((fun x => stepDate x ys ms ds hs)^[i] d))) := by
  constructor
  · simp [create_ops_data, hp, opsLoopAbs_eq]
  · exact absChildren_dates (v :: vs) ys ms ds hs num r d

/-- C1 witness: the concrete instance of the claim, with the three date
attributes evaluated: the record dates are exactly 2022-01-01 00:00:00,
2022-02-02 02:00:00, 2022-03-03 04:00:00. -/
theorem c1_witness :
    create_ops_data ⟨[]⟩ rng0 nowMay "site1" "ecoli" 3 ["valid", "invalid"] none
        "2022-01-01" 0 1 1 2 =
      .ok ({ rootChildren := [.node "operationsdata"
          [("site", "site1"), ("indicator", "ecoli")]
          (absChildren rng0 ["valid", "invalid"] ⟨2022, 1, 1, 0, 0, 0⟩ 0 1 1 2 3)] },
        rngAdv rng0 3) ∧
    (absChildren rng0 ["valid", "invalid"] ⟨2022, 1, 1, 0, 0, 0⟩ 0 1 1 2 3).map
        (fun c => List.lookup "date" c.attrs) =
      [some "2022-01-01 00:00:00", some "2022-02-02 02:00:00",
       some "2022-03-03 04:00:00"] := by
  have h := c1_absolute_calendar_stepping ⟨[]⟩ rng0 nowMay "site1" "ecoli" 3
    "valid" ["invalid"] "2022-01-01" 0 1 1 2 ⟨2022, 1, 1, 0, 0, 0⟩ (by decide)
  exact ⟨h.1, h.2.trans (by decide)⟩

/-- C2: in dynamic mode, `create_ops_data` appends one `operationsdata`
element whose record 0 carries the literal seed string as its `dynamic_date`
attribute, while every later record carries the string recomputed from the
fixed wall-clock reading plus one month, formatted `"- %m months"` — the
seed is recomputed from `now`, not advanced from the previous seed. -/
theorem c2_dynamic_recurrence (w : Writer) (r : Rng) (now : DateTime)
    (site indicator : String) (num : Nat) (v : String) (vs : List String)
    (seed fd : String) (ys ms ds hs : Int) :
    create_ops_data w r now site indicator num (v :: vs) (some seed) fd ys ms ds hs =
      .ok ({ rootChildren := w.rootChildren ++
          [.node "operationsdata" [("site", site), ("indicator", indicator)]
            (dynChildren r (v :: vs) seed now num)] }, rngAdv r num) ∧
    (dynChildren r (v :: vs) seed now num).map
        (fun c => List.lookup "dynamic_date" c.attrs) =
      (List.range num).map
        (fun i => some (if i = 0 then seed else fmtDynamic (addMonthsClamp now 1))) := by
  constructor
  · simp [create_ops_data, opsLoopDyn_eq]
  · exact dynChildren_dyns (v :: vs) now num r seed

/-- C2 witness: seed `-12 months`, `now` = 2022-05-15 10:30:00, three
records: the dynamic-date attributes are the literal seed and then twice the
recomputed string `- 06 months` (the month number of now plus one month). -/
theorem c2_witness :
    (dynChildren rng0 ["valid"] "-12 months" nowMay 3).map
        (fun c => List.lookup "dynamic_date" c.attrs) =
      [some "-12 months", some "- 06 months", some "- 06 months"] := by
  have h := c2_dynamic_recurrence ⟨[]⟩ rng0 nowMay "site1" "ecoli" 3 "valid" []
    "-12 months" "" 0 0 0 0
  exact h.2.trans (by decide)

set_option maxRecDepth 8000 in
/-- C3 counterexample: two runs with the same fixed random seed (the same
generator stream) and identical input record lists — a single dynamic-mode
series of two records — both succeed yet produce different serialized text
when the wall-clock times of the runs differ (2022-05-15 vs 2022-11-03):
the recomputed dynamic-date string of the second record differs
(`- 06 months` vs `- 12 months`). -/
theorem c3_counterexample :
    genOk (generate rng0 nowMay dynCmds) = true ∧
    genOk (generate rng0 nowNov dynCmds) = true ∧
    ((generate rng0 nowMay dynCmds).toOption ==
      (generate rng0 nowNov dynCmds).toOption) = false := by
  refine ⟨rfl, rfl, ?_⟩
  have h1 : (generate rng0 nowMay dynCmds).toOption =
      some (serializeDoc ⟨[.node "operationsdata"
        [("site", "site1"), ("indicator", "ecoli")]
        [.node "data" [("dynamic_date", "-12 months"), ("value", "valid")] [],
         .node "data" [("dynamic_date", "- 06 months"), ("value", "valid")] []]]⟩) := rfl
  have h2 : (generate rng0 nowNov dynCmds).toOption =
      some (serializeDoc ⟨[.node "operationsdata"
        [("site", "site1"), ("indicator", "ecoli")]
        [.node "data" [("dynamic_date", "-12 months"), ("value", "valid")] [],
         .node "data" [("dynamic_date", "- 12 months"), ("value", "valid")] []]]⟩) := rfl
  rw [h1, h2]
  simp only [serializeDoc, writeXmlList]
  decide

/-- C3, amended: two generation runs with the same fixed random seed and
identical input record lists produce byte-identical serialized output
provided they also observe the same wall-clock time — in particular always
when no series uses dynamic mode, since only a dynamic-mode
`create_ops_data` call reads the clock. -/
theorem c3_reproducibility (r : Rng) (n1 n2 : DateTime) (cmds : List Cmd)
    (h : n1 = n2 ∨ ∀ c ∈ cmds, c.usesClock = false) :
    generate r n1 cmds = generate r n2 cmds := by
  rcases h with h | h
  · rw [h]
  · unfold generate
    rw [runCmds_noClock n1 n2 cmds ⟨[]⟩ r h]

/-- C3 witness: a run containing an indicator and an absolute-mode series is
byte-identical under the two distinct wall-clock times of the
counterexample. -/
theorem c3_witness :
    generate rng0 nowMay absCmds = generate rng0 nowNov absCmds :=
  c3_reproducibility rng0 nowMay nowNov absCmds (Or.inr (by decide))

/-- C4: insertion order is preserved everywhere: each add operation appends
its new element after all previously appended root children, leaving them
unchanged (for `create_ops_data`, also when the call raises); the `map`,
`user`, `site` and `category` children inside an element appear in the order
of the input lists; and the serializer emits a child list as the first
child's text followed by the remaining children's text. -/
theorem c4_insertion_order (w : Writer) (r : Rng) (now : DateTime)
    (na ta ca : String) (nb cb : String) (inds : List String)
    (nc tc : String) (cats : List String) (p sdt edt : String)
    (nd : String) (users : List String) (sites : List (String × List String))
    (s5 i5 : String) (num : Nat) (vs : List String) (dyn : Option String)
    (fd : String) (sy sm sd5 sh : Int) (e : Element) (es : List Element)
    (ind : String) :
    (create_indicator w na ta ca).rootChildren = w.rootChildren ++
      [.node "indicator" [("name", na), ("type", ta), ("class", ca)] []] ∧
    (create_indicator_category w nb cb inds).rootChildren = w.rootChildren ++
      [.node "indicatorcategory" [("name", nb), ("class", cb)]
        (inds.map fun i => .node "map" [("indicator", i)] [])] ∧
    (create_site w nc tc cats p sdt edt).rootChildren = w.rootChildren ++
      [.node "site" (siteAttrs nc tc p sdt edt)
        (cats.map fun c => .node "map" [("category", c)] [])] ∧
    (create_access_group w nd users sites).rootChildren = w.rootChildren ++
      [.node "accessgroup" [("name", nd)]
        (users.map (fun u => .node "user" [("name", u)] []) ++
         sites.map (fun sc => .node "site" [("name", sc.1)]
           (sc.2.map fun c => .node "category" [("name", c)] [])))] ∧
    (opsDataCall w r now s5 i5 num vs dyn fd sy sm sd5 sh).1.rootChildren.take
        w.rootChildren.length = w.rootChildren ∧
    (opsDataCall w r now s5 i5 num vs dyn fd sy sm sd5 sh).1.rootChildren.length ≤
      w.rootChildren.length + 1 ∧
    writeXmlList (e :: es) ind = writeXmlList [e] ind ++ writeXmlList es ind := by
  refine ⟨rfl, ?_, ?_, ?_, ?_, ?_, ?_⟩
  · simp [create_indicator_category, foldl_appendChild]
  · simp [create_site, foldl_appendChild]
  · simp [create_access_group, foldl_appendChild]
  · unfold opsDataCall
    cases hc : create_ops_data w r now s5 i5 num vs dyn fd sy sm sd5 sh with
    | error e0 => simp [List.take_length]
    | ok p =>
      obtain ⟨cs, hcs⟩ := create_ops_data_ok_shape w r now s5 i5 num vs dyn fd
        sy sm sd5 sh p.1 p.2 (by rw [hc])
      simp [hcs, List.take_left]
  · unfold opsDataCall
    cases hc : create_ops_data w r now s5 i5 num vs dyn fd sy sm sd5 sh with
    | error e0 => simp
    | ok p =>
      obtain ⟨cs, hcs⟩ := create_ops_data_ok_shape w r now s5 i5 num vs dyn fd
        sy sm sd5 sh p.1 p.2 (by rw [hc])
      simp [hcs]
  · cases e with
    | node t a cs =>
      rw [writeXmlList_cons, writeXmlList_cons, writeXmlList_nil,
        String.append_empty]

/-- C5: `create_site` appends a `site` element whose attribute list contains
`name` and `type` always and contains `parent`, `start_date`, `end_date`
exactly when the corresponding argument is non-empty, verbatim; an absent
argument defaults to the empty string, so it is treated identically. -/
theorem c5_optional_site_attrs (w : Writer) (n t : String) (cats : List String)
    (p sdt edt : String) :
    (create_site w n t cats p sdt edt).rootChildren = w.rootChildren ++
      [.node "site" (siteAttrs n t p sdt edt)
        (cats.map fun c => .node "map" [("category", c)] [])] ∧
    List.lookup "parent" (siteAttrs n t p sdt edt) =
      (if p = "" then none else some p) ∧
    List.lookup "start_date" (siteAttrs n t p sdt edt) =
      (if sdt = "" then none else some sdt) ∧
    List.lookup "end_date" (siteAttrs n t p sdt edt) =
      (if edt = "" then none else some edt) ∧
    List.lookup "name" (siteAttrs n t p sdt edt) = some n ∧
    List.lookup "type" (siteAttrs n t p sdt edt) = some t := by
  refine ⟨by simp [create_site, foldl_appendChild], ?_, ?_, ?_, ?_, ?_⟩ <;>
    (unfold siteAttrs
     by_cases hp : p = "" <;> by_cases hs : sdt = "" <;> by_cases he : edt = "" <;>
       simp [hp, hs, he, List.lookup])

/-- C6: every `value` attribute emitted by `create_ops_data` — in either mode,
for every record — is a member of the supplied candidate-value list
(membership only; nothing about the distribution). -/
theorem c6_value_membership (w : Writer) (r : Rng) (now : DateTime)
    (site indicator : String) (num : Nat) (values : List String)
    (dyn : Option String) (fd : String) (sy sm sd sh : Int) :
    opsDataValuesOK w r now site indicator num values dyn fd sy sm sd sh = true := by
  cases dyn with
  | some dstr =>
    cases values with
    | nil =>
      cases num with
      | zero =>
        simp [opsDataValuesOK, create_ops_data, opsLoopDyn, List.drop_left,
          children_node]
      | succ m =>
        simp [opsDataValuesOK, create_ops_data, opsLoopDyn, randomChoice]
    | cons v vs =>
      simp only [opsDataValuesOK, create_ops_data, opsLoopDyn_eq]
      rw [List.drop_left]
      simp only [List.all_cons, List.all_nil, Bool.and_true, children_node,
        List.all_eq_true]
      intro c hc
      obtain ⟨u, hu, hlk⟩ := dynChildren_value v vs now num r dstr c hc
      rw [hlk]
      exact List.elem_iff.mpr hu
  | none =>
    cases hp : strptimeYmd fd with
    | none => simp [opsDataValuesOK, create_ops_data, hp]
    | some d =>
      cases values with
      | nil =>
        cases num with
        | zero =>
          simp [opsDataValuesOK, create_ops_data, hp, opsLoopAbs, List.drop_left,
            children_node]
        | succ m =>
          simp [opsDataValuesOK, create_ops_data, hp, opsLoopAbs, randomChoice]
      | cons v vs =>
        simp only [opsDataValuesOK, create_ops_data, hp, opsLoopAbs_eq]
        rw [List.drop_left]
        simp only [List.all_cons, List.all_nil, Bool.and_true, children_node,
          List.all_eq_true]
        intro c hc
        obtain ⟨u, hu, hlk⟩ := absChildren_value v vs sy sm sd sh num r d c hc
        rw [hlk]
        exact List.elem_iff.mpr hu

/-- C7: in absolute mode, `create_ops_data` fails with the host date-parsing
error exactly for the `from_date` strings the host parser rejects, and the
error reaches the caller unmodified (it is the only parse error the function
can return); for every well-formed `from_date` no parse error is raised. -/
theorem c7_parse_error_iff (w : Writer) (r : Rng) (now : DateTime)
    (site indicator : String) (num : Nat) (values : List String)
    (fd : String) (ys ms ds hs : Int) :
    create_ops_data w r now site indicator num values none fd ys ms ds hs =
        .error .parseError ↔ strptimeYmd fd = none := by
  cases hp : strptimeYmd fd with
  | none => simp [create_ops_data, hp]
  | some d =>
    simp only [create_ops_data, hp]
    cases hl : opsLoopAbs r values d ys ms ds hs num with
    | error e =>
      have he := opsLoopAbs_error values ys ms ds hs num r d e hl
      subst he
      simp
    | ok p => simp

/-- C7 witness: month 13 is rejected by the parser and surfaces as the parse
error; the well-formed 2022-01-01 parses, so no parse error is possible. -/
theorem c7_witness :
    create_ops_data ⟨[]⟩ rng0 nowMay "site1" "ecoli" 1 ["valid"] none
      "2022-13-01" 0 0 0 0 = .error .parseError :=
  (c7_parse_error_iff ⟨[]⟩ rng0 nowMay "site1" "ecoli" 1 ["valid"]
    "2022-13-01" 0 0 0 0).mpr rfl

/-- C8: with an empty candidate list, `create_ops_data` raises exactly when a
value is requested: in dynamic mode any call with at least one record raises
the empty-selection error; in absolute mode likewise once `from_date`
parses, while a malformed `from_date` raises the parse error instead (so
every such call raises, propagated uncaught); with zero records no value is
requested and the empty-selection error never occurs. -/
theorem c8_empty_values (w : Writer) (r : Rng) (now : DateTime)
    (site indicator : String) (num : Nat) (dynstr fd : String)
    (ys ms ds hs : Int) :
    (1 ≤ num →
      create_ops_data w r now site indicator num [] (some dynstr) fd ys ms ds hs =
        .error .emptySelection) ∧
    (∀ d, strptimeYmd fd = some d → 1 ≤ num →
      create_ops_data w r now site indicator num [] none fd ys ms ds hs =
        .error .emptySelection) ∧
    (strptimeYmd fd = none →
      create_ops_data w r now site indicator num [] none fd ys ms ds hs =
        .error .parseError) ∧
    ∀ (values : List String) (dyn : Option String),
      raisedEmptySelection
        (create_ops_data w r now site indicator 0 values dyn fd ys ms ds hs) = false := by
  refine ⟨?_, ?_, ?_, ?_⟩
  · intro h
    cases num with
    | zero => omega
    | succ m => simp [create_ops_data, opsLoopDyn, randomChoice]
  · intro d hd h
    cases num with
    | zero => omega
    | succ m => simp [create_ops_data, hd, opsLoopAbs, randomChoice]
  · intro h
    simp [create_ops_data, h]
  · intro values dyn
    cases dyn with
    | some dstr => simp [raisedEmptySelection, create_ops_data, opsLoopDyn]
    | none =>
      cases hp : strptimeYmd fd with
      | none => simp [raisedEmptySelection, create_ops_data, hp]
      | some d => simp [raisedEmptySelection, create_ops_data, hp, opsLoopAbs]

/-- C8 witness: with empty candidates, a five-record dynamic call and a
three-record absolute call with a well-formed date both raise the
empty-selection error, and a zero-record call never does. -/
theorem c8_witness :
    create_ops_data ⟨[]⟩ rng0 nowMay "site1" "ecoli" 5 [] (some "-12 months")
      "" 0 0 0 0 = .error .emptySelection ∧
    create_ops_data ⟨[]⟩ rng0 nowMay "site1" "ecoli" 3 [] none
      "2022-01-01" 0 0 0 0 = .error .emptySelection ∧
    raisedEmptySelection (create_ops_data ⟨[]⟩ rng0 nowMay "site1" "ecoli" 0 []
      none "bad-date" 0 0 0 0) = false :=
  ⟨(c8_empty_values ⟨[]⟩ rng0 nowMay "site1" "ecoli" 5 "-12 months" "" 0 0 0 0).1
      (by decide),
   (c8_empty_values ⟨[]⟩ rng0 nowMay "site1" "ecoli" 3 "x" "2022-01-01"
      0 0 0 0).2.1 ⟨2022, 1, 1, 0, 0, 0⟩ rfl (by decide),
   (c8_empty_values ⟨[]⟩ rng0 nowMay "site1" "ecoli" 0 "x" "bad-date"
      0 0 0 0).2.2.2 [] none⟩

/-- C9: a `create_ops_data` call that raises leaves the document unchanged:
the `operationsdata` element is attached to the root only on line 156, after
the whole record loop, so the writer observed after an exception is exactly
the writer before the call. -/
theorem c9_raise_leaves_writer (w : Writer) (r : Rng) (now : DateTime)
    (site indicator : String) (num : Nat) (values : List String)
    (dyn : Option String) (fd : String) (sy sm sd sh : Int)
    (w' : Writer) (r' : Rng) (e : GenError)
    (h : opsDataCall w r now site indicator num values dyn fd sy sm sd sh =
      (w', r', some e)) :
    w' = w := by
  unfold opsDataCall at h
  cases hc : create_ops_data w r now site indicator num values dyn fd sy sm sd sh with
  | ok p => rw [hc] at h; simp at h
  | error e0 => rw [hc] at h; exact (Prod.mk.injEq .. ▸ h).1.symm

/-- C9 witness: a call with an empty candidate list on a writer already
holding one indicator raises, and the writer it leaves behind is that same
one-indicator writer. -/
theorem c9_witness :
    (opsDataCall wIndicator rng0 nowMay "site1" "ecoli" 1 [] none
      "2022-01-01" 0 0 0 0).1 = wIndicator :=
  c9_raise_leaves_writer wIndicator rng0 nowMay "site1" "ecoli" 1 [] none
    "2022-01-01" 0 0 0 0
    (opsDataCall wIndicator rng0 nowMay "site1" "ecoli" 1 [] none
      "2022-01-01" 0 0 0 0).1
    (opsDataCall wIndicator rng0 nowMay "site1" "ecoli" 1 [] none
      "2022-01-01" 0 0 0 0).2.1
    GenError.emptySelection rfl

/-- C10: in absolute mode `from_date` is parsed before the record loop, so
with zero records a malformed `from_date` still raises the parse error, while
a well-formed one yields an `operationsdata` element with no `data` children
— whatever the candidate list, including the empty one. -/
theorem c10_zero_records (w : Writer) (r : Rng) (now : DateTime)
    (site indicator : String) (values : List String) (fd : String)
    (ys ms ds hs : Int) :
    (strptimeYmd fd = none →
      create_ops_data w r now site indicator 0 values none fd ys ms ds hs =
        .error .parseError) ∧
    ∀ d, strptimeYmd fd = some d →
      create_ops_data w r now site indicator 0 values none fd ys ms ds hs =
        .ok ({ rootChildren := w.rootChildren ++
            [.node "operationsdata" [("site", site), ("indicator", indicator)] []] },
          r) := by
  constructor
  · intro h
    simp [create_ops_data, h]
  · intro d hd
    simp [create_ops_data, hd, opsLoopAbs]

/-- C10 witness: with zero records, a malformed date still raises the parse
error and a well-formed one appends a childless `operationsdata` element even
though the candidate list is empty. -/
theorem c10_witness :
    create_ops_data ⟨[]⟩ rng0 nowMay "site1" "ecoli" 0 [] none
      "2022-99-99" 0 0 0 0 = .error .parseError ∧
    create_ops_data ⟨[]⟩ rng0 nowMay "site1" "ecoli" 0 [] none
      "2022-01-01" 0 0 0 0 =
      .ok ({ rootChildren := [] ++ [.node "operationsdata"
          [("site", "site1"), ("indicator", "ecoli")] []] }, rng0) :=
  ⟨(c10_zero_records ⟨[]⟩ rng0 nowMay "site1" "ecoli" [] "2022-99-99"
      0 0 0 0).1 rfl,
   (c10_zero_records ⟨[]⟩ rng0 nowMay "site1" "ecoli" [] "2022-01-01"
      0 0 0 0).2 ⟨2022, 1, 1, 0, 0, 0⟩ rfl⟩

end SwimXml
